import Mathlib

/-!
Shallow embedding of the "Restrict IF save" UserEvent script.

The repository holds two near-duplicate files:
* `src/unnamed/part_000` (header OTP-9678),
* `src/OTP-9419-Restrict-If-Save/_jj_ue_restrict_item_fullfillment.js`.

Both define `getSalesOrderAndDepositTotals`, `applyRestrictionLogic`,
`handleError` and `beforeSubmit`.  Numeric field values reaching
`parseFloat(x) || 0` are modelled as `Option ℚ` (`none` = missing or
unparseable, in which case `parseFloat` yields `NaN` and `|| 0` turns it
into `0`).  Collaborator calls that can throw are modelled as
`Except String` inputs; a thrown JavaScript string is the `error` case.
Log calls are modelled as returned `LogEntry` values carrying their level.
-/

/-- Log levels used by the scripts (`log.audit` vs `log.debug`). -/
inductive LogLevel where
  | audit : LogLevel
  | debug : LogLevel
deriving DecidableEq, Repr

/-- One emitted log message: level, title, details. -/
structure LogEntry where
  level : LogLevel
  title : String
  details : String
deriving DecidableEq, Repr

/-- The pair `{ soTotal, depositTotal }` returned by
`getSalesOrderAndDepositTotals`. -/
structure CoverageTotals where
  soTotal : ℚ
  depositTotal : ℚ
deriving DecidableEq, Repr

/-- The collaborator results consumed by `getSalesOrderAndDepositTotals`:
the raw `total` field of the sales order (from `search.lookupFields` /
`record.load`) and the raw `total` fields of the deposit search results.
Either collaborator may throw. -/
structure LookupEnv where
  orderField : Except String (Option ℚ)
  depositFields : Except String (List (Option ℚ))

/-- `parseFloat(x) || 0`: a missing or unparseable field contributes `0`. -/
def parseFloatOrZero (v : Option ℚ) : ℚ :=
  v.getD 0

/-- `runtime.ContextType.USEREVENT`. -/
def ContextTypeUSEREVENT : String := "USEREVENT"

/-- The string thrown by `applyRestrictionLogic` when the deposit is short. -/
def denyMessage (soId : String) (soTotal depositTotal : ℚ) : String :=
  "Cannot fulfill this Sales Order (" ++ soId ++ "). Total deposit (" ++
    toString depositTotal ++ ") is less than the order total (" ++
    toString soTotal ++ ")."

/-- `applyRestrictionLogic` from `src/unnamed/part_000` (lines 118-140):
under `USEREVENT` context it only logs (bypass); otherwise it throws the
denial string when `depositTotal < soTotal`, else audits
"Validation Passed". -/
def applyRestrictionLogic (execContext soId : String)
    (soTotal depositTotal : ℚ) : Except String LogEntry :=
  if execContext = ContextTypeUSEREVENT then
    if depositTotal < soTotal then
      Except.ok ⟨LogLevel.audit, "Restriction Bypassed",
        "Bulk fulfillment detected for Sales Order " ++ soId ++
          ". Deposit less than Sales Order total, but restriction bypassed."⟩
    else
      Except.ok ⟨LogLevel.audit, "Bulk Fulfillment Allowed",
        "Deposit sufficient for Sales Order " ++ soId ++
          ". Bulk fulfillment proceeding."⟩
  else
    if depositTotal < soTotal then
      Except.error (denyMessage soId soTotal depositTotal)
    else
      Except.ok ⟨LogLevel.audit, "Validation Passed",
        "Deposit sufficient for Sales Order " ++ soId ++
          ". Single fulfillment allowed."⟩

/-- `applyRestrictionLogic` from
`_jj_ue_restrict_item_fullfillment.js` (lines 42-67): identical control
flow, but the "Validation Passed" message goes to `log.debug`. -/
def applyRestrictionLogicAlt (execContext soId : String)
    (soTotal depositTotal : ℚ) : Except String LogEntry :=
  if execContext = ContextTypeUSEREVENT then
    if depositTotal < soTotal then
      Except.ok ⟨LogLevel.audit, "Restriction Bypassed",
        "Bulk fulfillment detected for Sales Order " ++ soId ++
          ". Deposit less than Sales Order total, but restriction bypassed."⟩
    else
      Except.ok ⟨LogLevel.audit, "Bulk Fulfillment Allowed",
        "Deposit sufficient for Sales Order " ++ soId ++
          ". Bulk fulfillment proceeding."⟩
  else
    if depositTotal < soTotal then
      Except.error (denyMessage soId soTotal depositTotal)
    else
      Except.ok ⟨LogLevel.debug, "Validation Passed",
        "Deposit sufficient for Sales Order " ++ soId ++
          ". Single fulfillment allowed."⟩

/-- The Allow/Deny outcome of `applyRestrictionLogic`, forgetting the log
entry but keeping the thrown denial message. -/
def outcome (r : Except String LogEntry) : Except String Unit :=
  match r with
  | Except.error e => Except.error e
  | Except.ok _ => Except.ok ()

/-- `getSalesOrderAndDepositTotals`: reads the order total field
(`parseFloat(...) || 0`), then folds the deposit search results with
`depositTotal += parseFloat(result.getValue('total')) || 0` starting from
`0`.  The `try { ... } catch (e) { throw e }` wrapper rethrows collaborator
failures unchanged. -/
def getSalesOrderAndDepositTotals (env : LookupEnv) :
    Except String CoverageTotals :=
  match env.orderField with
  | Except.error e => Except.error e
  | Except.ok soField =>
    let soTotal := parseFloatOrZero soField
    match env.depositFields with
    | Except.error e => Except.error e
    | Except.ok deposits =>
      let depositTotal :=
        deposits.foldl (fun acc d => acc + parseFloatOrZero d) 0
      Except.ok ⟨soTotal, depositTotal⟩

/-- `handleError`: rethrows the caught value unchanged. -/
def handleError {α : Type} (e : String) : Except String α :=
  Except.error e

/-- `scriptContext.UserEventType` values relevant here. -/
inductive UserEventType where
  | CREATE : UserEventType
  | EDIT : UserEventType
  | DELETE : UserEventType
  | XEDIT : UserEventType
deriving DecidableEq, Repr

/-- The parts of `scriptContext` the scripts read: the operation type and
the new record's `createdfrom` field (`none` = field absent; `some ""` =
empty string, which is also falsy in `if (!soId)`). -/
structure ScriptContext where
  type : UserEventType
  createdfrom : Option String
deriving DecidableEq, Repr

/-- JavaScript truthiness of `soId = newRec.getValue('createdfrom')`. -/
def truthyId (v : Option String) : Bool :=
  match v with
  | none => false
  | some s => !(s = "")

/-- Details of the "Deposit Validation" log line. -/
def depositValidationDetails (soId : String) (soTotal depositTotal : ℚ) :
    String :=
  "Sales Order ID: " ++ soId ++ " | Sales Order Total: " ++
    toString soTotal ++ " | Deposit Total: " ++ toString depositTotal

/-- `beforeSubmit` from `src/unnamed/part_000` (lines 43-70): skips
non-CREATE events and events without a truthy `createdfrom` (returning
nothing and logging nothing), otherwise fetches totals, audits
"Deposit Validation", and applies the restriction logic.  Errors thrown by
the lookups or the restriction logic pass through `handleError`, which
rethrows them unchanged. -/
def beforeSubmit (sc : ScriptContext) (execContext : String)
    (env : LookupEnv) : Except String (List LogEntry) :=
  if sc.type ≠ UserEventType.CREATE then
    Except.ok []
  else if truthyId sc.createdfrom = false then
    Except.ok []
  else
    let soId := sc.createdfrom.getD ""
    match getSalesOrderAndDepositTotals env with
    | Except.error e => handleError e
    | Except.ok totals =>
      match applyRestrictionLogic execContext soId
          totals.soTotal totals.depositTotal with
      | Except.error e => handleError e
      | Except.ok entry =>
        Except.ok [⟨LogLevel.audit, "Deposit Validation",
          depositValidationDetails soId totals.soTotal totals.depositTotal⟩,
          entry]

/-- `beforeSubmit` from `_jj_ue_restrict_item_fullfillment.js`
(lines 81-110): same control flow, but the skip branches emit `log.debug`
diagnostics, the "Deposit Validation" line is `log.debug`, and the
restriction logic is the `Alt` variant. -/
def beforeSubmitAlt (sc : ScriptContext) (execContext : String)
    (env : LookupEnv) : Except String (List LogEntry) :=
  if sc.type ≠ UserEventType.CREATE then
    Except.ok [⟨LogLevel.debug, "Exit", "Not a Create operation."⟩]
  else if truthyId sc.createdfrom = false then
    Except.ok [⟨LogLevel.debug, "Skip", "No Sales Order linked."⟩]
  else
    let soId := sc.createdfrom.getD ""
    match getSalesOrderAndDepositTotals env with
    | Except.error e => handleError e
    | Except.ok totals =>
      match applyRestrictionLogicAlt execContext soId
          totals.soTotal totals.depositTotal with
      | Except.error e => handleError e
      | Except.ok entry =>
        Except.ok [⟨LogLevel.debug, "Deposit Validation",
          depositValidationDetails soId totals.soTotal totals.depositTotal⟩,
          entry]

/-- Number of audit-level entries in a list of emitted log messages. -/
def auditCount (logs : List LogEntry) : Nat :=
  (logs.filter (fun l => l.level == LogLevel.audit)).length

/-! ## Helper lemmas shared by several claims -/

lemma foldl_add_parse (deposits : List (Option ℚ)) (init : ℚ) :
    deposits.foldl (fun acc d => acc + parseFloatOrZero d) init =
      init + (deposits.map parseFloatOrZero).sum := by
  induction deposits generalizing init with
  | nil => simp
  | cons d ds ih => simp [List.foldl_cons, ih, add_assoc]

lemma getTotals_ok (soField : Option ℚ) (deposits : List (Option ℚ)) :
    getSalesOrderAndDepositTotals ⟨Except.ok soField, Except.ok deposits⟩ =
      Except.ok ⟨parseFloatOrZero soField,
        (deposits.map parseFloatOrZero).sum⟩ := by
  simp [getSalesOrderAndDepositTotals, foldl_add_parse]

lemma apply_ok_of_le (ec soId : String) (soT depT : ℚ) (h : soT ≤ depT) :
    ∃ entry, applyRestrictionLogic ec soId soT depT = Except.ok entry := by
  unfold applyRestrictionLogic
  by_cases hc : ec = ContextTypeUSEREVENT
  · rw [if_pos hc, if_neg (not_lt.mpr h)]
    exact ⟨_, rfl⟩
  · rw [if_neg hc, if_neg (not_lt.mpr h)]
    exact ⟨_, rfl⟩

/-! ## Claim theorems -/

/-- C1: whenever `depositTotal >= orderTotal` (including exact equality),
`applyRestrictionLogic` returns normally (Allow) for every execution
context and never throws a denial, because the test uses strict `<`. -/
theorem c1_covered_implies_allow (ec soId : String)
    (soTotal depositTotal : ℚ) (h : soTotal ≤ depositTotal) :
    ∃ entry, applyRestrictionLogic ec soId soTotal depositTotal =
      Except.ok entry :=
  apply_ok_of_le ec soId soTotal depositTotal h

/-- Witness for C1 at the exact-equality boundary in a non-interactive
context. -/
theorem c1_covered_implies_allow_witness :
    (1000 : ℚ) ≤ 1000 ∧
    ∃ entry, applyRestrictionLogic "SUITELET" "42" 1000 1000 =
      Except.ok entry :=
  ⟨le_refl 1000,
    c1_covered_implies_allow "SUITELET" "42" 1000 1000 (le_refl 1000)⟩

/-- C2: with `depositTotal < orderTotal` in any context other than
`USEREVENT`, `applyRestrictionLogic` throws the denial string, and that
string contains the sales order reference, the deposit total and the
order total. -/
theorem c2_short_noninteractive_denies (ec soId : String)
    (soTotal depositTotal : ℚ) (h1 : depositTotal < soTotal)
    (h2 : ec ≠ ContextTypeUSEREVENT) :
    applyRestrictionLogic ec soId soTotal depositTotal =
      Except.error (denyMessage soId soTotal depositTotal) ∧
    (∃ a b, denyMessage soId soTotal depositTotal = a ++ soId ++ b) ∧
    (∃ a b, denyMessage soId soTotal depositTotal =
      a ++ toString depositTotal ++ b) ∧
    (∃ a b, denyMessage soId soTotal depositTotal =
      a ++ toString soTotal ++ b) := by
  refine ⟨?_, ?_, ?_, ?_⟩
  · unfold applyRestrictionLogic
    rw [if_neg h2, if_pos h1]
  · refine ⟨"Cannot fulfill this Sales Order (",
      "). Total deposit (" ++ toString depositTotal ++
        ") is less than the order total (" ++ toString soTotal ++ ").", ?_⟩
    simp [denyMessage, String.append_assoc]
  · refine ⟨"Cannot fulfill this Sales Order (" ++ soId ++
      "). Total deposit (",
      ") is less than the order total (" ++ toString soTotal ++ ").", ?_⟩
    simp [denyMessage, String.append_assoc]
  · refine ⟨"Cannot fulfill this Sales Order (" ++ soId ++
      "). Total deposit (" ++ toString depositTotal ++
        ") is less than the order total (", ").", ?_⟩
    simp [denyMessage, String.append_assoc]

/-- Witness for C2: order total 1000, deposits 400, SUITELET context. -/
theorem c2_short_noninteractive_denies_witness :
    ((400 : ℚ) < 1000 ∧ "SUITELET" ≠ ContextTypeUSEREVENT) ∧
    (applyRestrictionLogic "SUITELET" "7" 1000 400 =
      Except.error (denyMessage "7" 1000 400) ∧
    (∃ a b, denyMessage "7" 1000 400 = a ++ "7" ++ b) ∧
    (∃ a b, denyMessage "7" 1000 400 = a ++ toString (400 : ℚ) ++ b) ∧
    (∃ a b, denyMessage "7" 1000 400 = a ++ toString (1000 : ℚ) ++ b)) :=
  ⟨⟨by norm_num, by decide⟩,
    c2_short_noninteractive_denies "SUITELET" "7" 1000 400
      (by norm_num) (by decide)⟩

/-- C3: with `depositTotal < orderTotal` under the `USEREVENT` context,
`applyRestrictionLogic` returns normally with the bypass audit entry and
never throws. -/
theorem c3_userevent_bypasses (soId : String) (soTotal depositTotal : ℚ)
    (h : depositTotal < soTotal) :
    applyRestrictionLogic ContextTypeUSEREVENT soId soTotal depositTotal =
      Except.ok ⟨LogLevel.audit, "Restriction Bypassed",
        "Bulk fulfillment detected for Sales Order " ++ soId ++
          ". Deposit less than Sales Order total, but restriction bypassed."⟩
    := by
  unfold applyRestrictionLogic
  rw [if_pos rfl, if_pos h]

/-- Witness for C3: order total 1000, deposits 400, USEREVENT context. -/
theorem c3_userevent_bypasses_witness :
    (400 : ℚ) < 1000 ∧
    applyRestrictionLogic ContextTypeUSEREVENT "7" 1000 400 =
      Except.ok ⟨LogLevel.audit, "Restriction Bypassed",
        "Bulk fulfillment detected for Sales Order " ++ "7" ++
          ". Deposit less than Sales Order total, but restriction bypassed."⟩
    :=
  ⟨by norm_num, c3_userevent_bypasses "7" 1000 400 (by norm_num)⟩

/-- C4: for a non-CREATE event, both `beforeSubmit` variants return
immediately: the `part_000` variant emits nothing at all, the other
variant emits only the debug "Exit" diagnostic; neither consults the
lookup collaborators (the result is independent of the lookup
environment), produces a decision, or throws a denial. -/
theorem c4_non_create_noop (sc : ScriptContext) (ec : String)
    (env envB : LookupEnv) (h : sc.type ≠ UserEventType.CREATE) :
    beforeSubmit sc ec env = Except.ok [] ∧
    beforeSubmit sc ec env = beforeSubmit sc ec envB ∧
    beforeSubmitAlt sc ec env =
      Except.ok [⟨LogLevel.debug, "Exit", "Not a Create operation."⟩] ∧
    beforeSubmitAlt sc ec env = beforeSubmitAlt sc ec envB := by
  refine ⟨?_, ?_, ?_, ?_⟩ <;> simp [beforeSubmit, beforeSubmitAlt, h]

/-- Witness for C4: an EDIT event with a linked order and totals that
would otherwise deny; the lookup environments differ, one even fails. -/
theorem c4_non_create_noop_witness :
    (⟨UserEventType.EDIT, some "7"⟩ : ScriptContext).type ≠
      UserEventType.CREATE ∧
    (beforeSubmit ⟨UserEventType.EDIT, some "7"⟩ "SUITELET"
        ⟨Except.ok (some 1000), Except.ok [some 400]⟩ = Except.ok [] ∧
    beforeSubmit ⟨UserEventType.EDIT, some "7"⟩ "SUITELET"
        ⟨Except.ok (some 1000), Except.ok [some 400]⟩ =
      beforeSubmit ⟨UserEventType.EDIT, some "7"⟩ "SUITELET"
        ⟨Except.error "down", Except.error "down"⟩ ∧
    beforeSubmitAlt ⟨UserEventType.EDIT, some "7"⟩ "SUITELET"
        ⟨Except.ok (some 1000), Except.ok [some 400]⟩ =
      Except.ok [⟨LogLevel.debug, "Exit", "Not a Create operation."⟩] ∧
    beforeSubmitAlt ⟨UserEventType.EDIT, some "7"⟩ "SUITELET"
        ⟨Except.ok (some 1000), Except.ok [some 400]⟩ =
      beforeSubmitAlt ⟨UserEventType.EDIT, some "7"⟩ "SUITELET"
        ⟨Except.error "down", Except.error "down"⟩) :=
  ⟨by decide,
    c4_non_create_noop ⟨UserEventType.EDIT, some "7"⟩ "SUITELET"
      ⟨Except.ok (some 1000), Except.ok [some 400]⟩
      ⟨Except.error "down", Except.error "down"⟩ (by decide)⟩

/-- C5: for a CREATE event whose `createdfrom` field is absent (or the
empty string, which is equally falsy), both `beforeSubmit` variants skip
validation: they return without error, emit no audit-level message, never
consult the lookup collaborators, and never deny. -/
theorem c5_missing_linkage_skips (sc : ScriptContext) (ec : String)
    (env envB : LookupEnv) (h1 : sc.type = UserEventType.CREATE)
    (h2 : truthyId sc.createdfrom = false) :
    beforeSubmit sc ec env = Except.ok [] ∧
    auditCount [] = 0 ∧
    beforeSubmit sc ec env = beforeSubmit sc ec envB ∧
    beforeSubmitAlt sc ec env =
      Except.ok [⟨LogLevel.debug, "Skip", "No Sales Order linked."⟩] ∧
    auditCount [⟨LogLevel.debug, "Skip", "No Sales Order linked."⟩] = 0 ∧
    beforeSubmitAlt sc ec env = beforeSubmitAlt sc ec envB := by
  refine ⟨?_, rfl, ?_, ?_, rfl, ?_⟩ <;>
    simp [beforeSubmit, beforeSubmitAlt, h1, h2]

/-- Witness for C5: a CREATE event with no `createdfrom`, lookup
environments that disagree (one failing) and would deny if consulted. -/
theorem c5_missing_linkage_skips_witness :
    ((⟨UserEventType.CREATE, none⟩ : ScriptContext).type =
        UserEventType.CREATE ∧
      truthyId (⟨UserEventType.CREATE, none⟩ : ScriptContext).createdfrom =
        false) ∧
    (beforeSubmit ⟨UserEventType.CREATE, none⟩ "SUITELET"
        ⟨Except.ok (some 1000), Except.ok [some 400]⟩ = Except.ok [] ∧
    auditCount [] = 0 ∧
    beforeSubmit ⟨UserEventType.CREATE, none⟩ "SUITELET"
        ⟨Except.ok (some 1000), Except.ok [some 400]⟩ =
      beforeSubmit ⟨UserEventType.CREATE, none⟩ "SUITELET"
        ⟨Except.error "down", Except.error "down"⟩ ∧
    beforeSubmitAlt ⟨UserEventType.CREATE, none⟩ "SUITELET"
        ⟨Except.ok (some 1000), Except.ok [some 400]⟩ =
      Except.ok [⟨LogLevel.debug, "Skip", "No Sales Order linked."⟩] ∧
    auditCount [⟨LogLevel.debug, "Skip", "No Sales Order linked."⟩] = 0 ∧
    beforeSubmitAlt ⟨UserEventType.CREATE, none⟩ "SUITELET"
        ⟨Except.ok (some 1000), Except.ok [some 400]⟩ =
      beforeSubmitAlt ⟨UserEventType.CREATE, none⟩ "SUITELET"
        ⟨Except.error "down", Except.error "down"⟩) :=
  ⟨⟨rfl, rfl⟩,
    c5_missing_linkage_skips ⟨UserEventType.CREATE, none⟩ "SUITELET"
      ⟨Except.ok (some 1000), Except.ok [some 400]⟩
      ⟨Except.error "down", Except.error "down"⟩ rfl rfl⟩

/-- C6: when both lookups succeed, `depositTotal` is exactly the sum of
`parseFloat(total) || 0` over the returned deposit rows; a missing or
unparseable field contributes `0`, and an empty deposit set yields
`depositTotal = 0`. -/
theorem c6_deposit_sum (soField : Option ℚ) (deposits : List (Option ℚ)) :
    getSalesOrderAndDepositTotals ⟨Except.ok soField, Except.ok deposits⟩ =
      Except.ok ⟨parseFloatOrZero soField,
        (deposits.map parseFloatOrZero).sum⟩ ∧
    parseFloatOrZero none = 0 ∧
    getSalesOrderAndDepositTotals ⟨Except.ok soField, Except.ok []⟩ =
      Except.ok ⟨parseFloatOrZero soField, 0⟩ := by
  refine ⟨getTotals_ok soField deposits, rfl, ?_⟩
  simpa using getTotals_ok soField []

/-- C7 counterexample: the totals returned by
`getSalesOrderAndDepositTotals` are NOT always non-negative: a stored
order total of `-1` (which `parseFloat` passes through unchanged) yields
`soTotal = -1`. -/
theorem c7_nonneg_counterexample :
    ¬ (∀ (env : LookupEnv) (t : CoverageTotals),
        getSalesOrderAndDepositTotals env = Except.ok t →
        0 ≤ t.soTotal ∧ 0 ≤ t.depositTotal) := by
  intro h
  have hc := h ⟨Except.ok (some (-1)), Except.ok []⟩ ⟨-1, 0⟩ (by
    simpa using getTotals_ok (some (-1)) [])
  exact absurd hc.1 (by norm_num)

/-- C7 amended: the code performs no clamping, so non-negativity of the
returned `CoverageTotals` holds exactly when every field value delivered
by the collaborators is non-negative (missing/unparseable fields, which
become `0`, included). -/
theorem c7_nonneg_of_nonneg_fields (soField : Option ℚ)
    (deposits : List (Option ℚ)) (t : CoverageTotals)
    (h1 : ∀ x ∈ soField, 0 ≤ x)
    (h2 : ∀ d ∈ deposits, ∀ x ∈ d, 0 ≤ x)
    (h3 : getSalesOrderAndDepositTotals
      ⟨Except.ok soField, Except.ok deposits⟩ = Except.ok t) :
    0 ≤ t.soTotal ∧ 0 ≤ t.depositTotal := by
  rw [getTotals_ok] at h3
  injection h3 with h3
  subst h3
  constructor
  · cases soField with
    | none => simp [parseFloatOrZero]
    | some x =>
      simpa [parseFloatOrZero] using h1 x rfl
  · apply List.sum_nonneg
    intro q hq
    simp only [List.mem_map] at hq
    obtain ⟨d, hd, rfl⟩ := hq
    cases d with
    | none => simp [parseFloatOrZero]
    | some x =>
      simpa [parseFloatOrZero] using h2 (some x) hd x rfl

/-- Witness for the amended C7: order field `5`, deposit rows `2` and an
unparseable one. -/
theorem c7_nonneg_of_nonneg_fields_witness :
    ((∀ x ∈ some (5 : ℚ), 0 ≤ x) ∧
      (∀ d ∈ [some (2 : ℚ), none], ∀ x ∈ d, 0 ≤ x) ∧
      getSalesOrderAndDepositTotals
        ⟨Except.ok (some 5), Except.ok [some 2, none]⟩ =
          Except.ok ⟨5, 2⟩) ∧
    (0 ≤ (⟨5, 2⟩ : CoverageTotals).soTotal ∧
      0 ≤ (⟨5, 2⟩ : CoverageTotals).depositTotal) :=
  ⟨⟨by
      intro x hx
      simp only [Option.mem_def, Option.some_inj] at hx
      subst hx
      norm_num,
    by
      intro d hd x hx
      simp at hd
      rcases hd with rfl | rfl
      · simp only [Option.mem_def, Option.some_inj] at hx
        subst hx
        norm_num
      · simp at hx,
    by
      rw [getTotals_ok]
      norm_num [parseFloatOrZero]⟩,
    c7_nonneg_of_nonneg_fields (some 5) [some 2, none] ⟨5, 2⟩
      (by
        intro x hx
        simp only [Option.mem_def, Option.some_inj] at hx
        subst hx
        norm_num)
      (by
        intro d hd x hx
        simp at hd
        rcases hd with rfl | rfl
        · simp only [Option.mem_def, Option.some_inj] at hx
          subst hx
          norm_num
        · simp at hx)
      (by
        rw [getTotals_ok]
        norm_num [parseFloatOrZero])⟩

/-- C8: a collaborator failure propagates unchanged.
`getSalesOrderAndDepositTotals` rethrows a failure of either lookup as-is,
`handleError` rethrows as-is, and on a validated CREATE event both
`beforeSubmit` variants surface the very same thrown value with no
recovery and no decision. -/
theorem c8_failure_propagates (sc : ScriptContext) (ec err : String)
    (env : LookupEnv) (soField : Option ℚ)
    (depositsE : Except String (List (Option ℚ)))
    (h1 : sc.type = UserEventType.CREATE)
    (h2 : truthyId sc.createdfrom = true)
    (h3 : getSalesOrderAndDepositTotals env = Except.error err) :
    beforeSubmit sc ec env = Except.error err ∧
    beforeSubmitAlt sc ec env = Except.error err ∧
    getSalesOrderAndDepositTotals ⟨Except.error err, depositsE⟩ =
      Except.error err ∧
    getSalesOrderAndDepositTotals ⟨Except.ok soField, Except.error err⟩ =
      Except.error err ∧
    (handleError err : Except String Unit) = Except.error err := by
  refine ⟨?_, ?_, rfl, rfl, rfl⟩
  · simp [beforeSubmit, h1, h2, h3, handleError]
  · simp [beforeSubmitAlt, h1, h2, h3, handleError]

/-- Witness for C8: the order lookup throws "down" on a linked CREATE
event; the failure surfaces verbatim from both variants. -/
theorem c8_failure_propagates_witness :
    ((⟨UserEventType.CREATE, some "7"⟩ : ScriptContext).type =
        UserEventType.CREATE ∧
      truthyId (⟨UserEventType.CREATE, some "7"⟩ :
        ScriptContext).createdfrom = true ∧
      getSalesOrderAndDepositTotals
        ⟨Except.error "down", Except.ok []⟩ = Except.error "down") ∧
    (beforeSubmit ⟨UserEventType.CREATE, some "7"⟩ "SUITELET"
        ⟨Except.error "down", Except.ok []⟩ = Except.error "down" ∧
    beforeSubmitAlt ⟨UserEventType.CREATE, some "7"⟩ "SUITELET"
        ⟨Except.error "down", Except.ok []⟩ = Except.error "down" ∧
    getSalesOrderAndDepositTotals
        ⟨Except.error "down", Except.ok [some 1]⟩ = Except.error "down" ∧
    getSalesOrderAndDepositTotals
        ⟨Except.ok (some 9), Except.error "down"⟩ = Except.error "down" ∧
    (handleError "down" : Except String Unit) = Except.error "down") :=
  ⟨⟨rfl, rfl, rfl⟩,
    c8_failure_propagates ⟨UserEventType.CREATE, some "7"⟩ "SUITELET"
      "down" ⟨Except.error "down", Except.ok []⟩ (some 9)
      (Except.ok [some 1]) rfl rfl rfl⟩

/-- C9: the two files' `applyRestrictionLogic` variants produce the same
Allow/Deny outcome, with the identical denial message when they deny; they
differ only in the level of the "Validation Passed" log line. -/
theorem c9_variants_same_outcome (ec soId : String)
    (soTotal depositTotal : ℚ) :
    outcome (applyRestrictionLogic ec soId soTotal depositTotal) =
      outcome (applyRestrictionLogicAlt ec soId soTotal depositTotal) := by
  unfold applyRestrictionLogic applyRestrictionLogicAlt outcome
  by_cases hc : ec = ContextTypeUSEREVENT <;>
    by_cases hd : depositTotal < soTotal <;>
      simp [hc, hd]

/-- C10: when the stored order total is missing or unparseable, `soTotal`
defaults to `0`, and for any deposit rows whose parsed sum is
non-negative, `applyRestrictionLogic` allows in every execution context. -/
theorem c10_unparseable_total_disables (ec soId : String)
    (deposits : List (Option ℚ)) (t : CoverageTotals)
    (h1 : getSalesOrderAndDepositTotals
      ⟨Except.ok none, Except.ok deposits⟩ = Except.ok t)
    (h2 : 0 ≤ t.depositTotal) :
    t.soTotal = 0 ∧
    ∃ entry, applyRestrictionLogic ec soId t.soTotal t.depositTotal =
      Except.ok entry := by
  rw [getTotals_ok] at h1
  injection h1 with h1
  subst h1
  refine ⟨rfl, ?_⟩
  apply apply_ok_of_le
  simpa [parseFloatOrZero] using h2

/-- Witness for C10: unparseable order total, one deposit of 3, SUITELET
context; the restriction is disabled. -/
theorem c10_unparseable_total_disables_witness :
    (getSalesOrderAndDepositTotals
        ⟨Except.ok none, Except.ok [some 3]⟩ = Except.ok ⟨0, 3⟩ ∧
      0 ≤ ((⟨0, 3⟩ : CoverageTotals)).depositTotal) ∧
    ((⟨0, 3⟩ : CoverageTotals).soTotal = 0 ∧
      ∃ entry, applyRestrictionLogic "SUITELET" "7"
        (⟨0, 3⟩ : CoverageTotals).soTotal
        (⟨0, 3⟩ : CoverageTotals).depositTotal = Except.ok entry) :=
  ⟨⟨by rw [getTotals_ok]; norm_num [parseFloatOrZero], by norm_num⟩,
    c10_unparseable_total_disables "SUITELET" "7" [some 3] ⟨0, 3⟩
      (by rw [getTotals_ok]; norm_num [parseFloatOrZero]) (by norm_num)⟩
